import Mathlib

/-!
Shallow embedding of the smart-device demo (`src/Source.cpp`).

Each C++ device class becomes a Lean structure holding the same fields.
Mutating member functions become pure functions `State → State × List String`,
where the second component is the list of console lines the call prints
(every printing operation in the source prints exactly one line).
Move construction and move assignment, which in the source also reset the
moved-from object, are modelled as functions returning both resulting
objects.  The CRTP wrappers `turnOn` / `turnOff` dispatch directly to
`doTurnOn` / `doTurnOff`, so they are modelled by the same functions.
-/

/-- State of `LightControl`: one boolean field `isOn` (initially `false`). -/
structure LightControl where
  isOn : Bool
deriving DecidableEq, Repr

namespace LightControl

/-- Default constructor `LightControl() : isOn(false)`. -/
def init : LightControl := ⟨false⟩

/-- `doTurnOn`: sets `isOn = true` and prints "Light is ON". -/
def doTurnOn (_s : LightControl) : LightControl × List String :=
  (⟨true⟩, ["Light is ON"])

/-- `doTurnOff`: sets `isOn = false` and prints "Light is OFF". -/
def doTurnOff (_s : LightControl) : LightControl × List String :=
  (⟨false⟩, ["Light is OFF"])

/-- Query `isLightOn`. -/
def isLightOn (s : LightControl) : Bool := s.isOn

/-- Copy constructor / copy assignment: copies the field. -/
def copyCtor (s : LightControl) : LightControl := ⟨s.isOn⟩

/-- Move constructor: the new object takes `other.isOn`; the moved-from
object is reset to `isOn = false`.  Result: `(new object, moved-from)`. -/
def moveCtor (other : LightControl) : LightControl × LightControl :=
  (⟨other.isOn⟩, ⟨false⟩)

/-- Move assignment (`this != &other` branch): the target takes
`other.isOn`; the moved-from object is reset to `false`.
Result: `(target after assignment, moved-from)`.  The self-assignment
branch of the source leaves the object unchanged. -/
def moveAssign (_target other : LightControl) : LightControl × LightControl :=
  (⟨other.isOn⟩, ⟨false⟩)

end LightControl

/-- State of `ThermostatControl`: fields `isOn` and `temperature`
(initially `false` and `20`).  `temperature` is a C++ `int`, modelled
as `Int` (no arithmetic is performed on it, so overflow cannot occur). -/
structure ThermostatControl where
  isOn : Bool
  temperature : Int
deriving DecidableEq, Repr

namespace ThermostatControl

/-- Default constructor `ThermostatControl() : isOn(false), temperature(20)`. -/
def init : ThermostatControl := ⟨false, 20⟩

/-- `doTurnOn`: sets `isOn = true` and prints "Thermostat is ON". -/
def doTurnOn (s : ThermostatControl) : ThermostatControl × List String :=
  (⟨true, s.temperature⟩, ["Thermostat is ON"])

/-- `doTurnOff`: sets `isOn = false` and prints "Thermostat is OFF". -/
def doTurnOff (s : ThermostatControl) : ThermostatControl × List String :=
  (⟨false, s.temperature⟩, ["Thermostat is OFF"])

/-- `setTemperature(int temp)`:
if `isOn && temp >= 10 && temp <= 30` the temperature is set and the
confirmation line printed; else if `!isOn` the off notice is printed;
else the range notice is printed.  The state is unchanged in the two
rejection branches. -/
def setTemperature (s : ThermostatControl) (temp : Int) :
    ThermostatControl × List String :=
  if s.isOn = true ∧ 10 ≤ temp ∧ temp ≤ 30 then
    (⟨s.isOn, temp⟩, ["Thermostat temperature set to: " ++ toString temp])
  else if s.isOn = false then
    (s, ["Cannot set temperature, thermostat is off."])
  else
    (s, ["Invalid temperature. Temperature must be between 10 and 30."])

/-- Query `getTemperature`. -/
def getTemperature (s : ThermostatControl) : Int := s.temperature

/-- Copy constructor / copy assignment: copies both fields. -/
def copyCtor (s : ThermostatControl) : ThermostatControl :=
  ⟨s.isOn, s.temperature⟩

/-- Move constructor: the new object takes both fields; the moved-from
object is reset to `isOn = false`, `temperature = 0`. -/
def moveCtor (other : ThermostatControl) :
    ThermostatControl × ThermostatControl :=
  (⟨other.isOn, other.temperature⟩, ⟨false, 0⟩)

/-- Move assignment (`this != &other` branch): target takes both fields;
moved-from object reset to `isOn = false`, `temperature = 0`. -/
def moveAssign (_target other : ThermostatControl) :
    ThermostatControl × ThermostatControl :=
  (⟨other.isOn, other.temperature⟩, ⟨false, 0⟩)

end ThermostatControl

/-- State of `SmartLockControl`: one boolean field `isLocked`
(initially `true`). -/
structure SmartLockControl where
  isLocked : Bool
deriving DecidableEq, Repr

namespace SmartLockControl

/-- Default constructor `SmartLockControl() : isLocked(true)`. -/
def init : SmartLockControl := ⟨true⟩

/-- `doTurnOn`: sets `isLocked = false` and prints "Smart Lock is UNLOCKED". -/
def doTurnOn (_s : SmartLockControl) : SmartLockControl × List String :=
  (⟨false⟩, ["Smart Lock is UNLOCKED"])

/-- `doTurnOff`: sets `isLocked = true` and prints "Smart Lock is LOCKED". -/
def doTurnOff (_s : SmartLockControl) : SmartLockControl × List String :=
  (⟨true⟩, ["Smart Lock is LOCKED"])

/-- Query `getLockStatus`. -/
def getLockStatus (s : SmartLockControl) : Bool := s.isLocked

/-- Copy constructor / copy assignment: copies the field. -/
def copyCtor (s : SmartLockControl) : SmartLockControl := ⟨s.isLocked⟩

/-- Move constructor: new object takes `other.isLocked`; moved-from
object is reset to `isLocked = true`. -/
def moveCtor (other : SmartLockControl) :
    SmartLockControl × SmartLockControl :=
  (⟨other.isLocked⟩, ⟨true⟩)

/-- Move assignment (`this != &other` branch): target takes
`other.isLocked`; moved-from object reset to `true`. -/
def moveAssign (_target other : SmartLockControl) :
    SmartLockControl × SmartLockControl :=
  (⟨other.isLocked⟩, ⟨true⟩)

end SmartLockControl

/-- State of `GarageDoorControl`: one boolean field `isOpen`
(initially `false`). -/
structure GarageDoorControl where
  isOpen : Bool
deriving DecidableEq, Repr

namespace GarageDoorControl

/-- Default constructor `GarageDoorControl() : isOpen(false)`. -/
def init : GarageDoorControl := ⟨false⟩

/-- `doTurnOn`: sets `isOpen = true` and prints "Garage Door is OPEN". -/
def doTurnOn (_s : GarageDoorControl) : GarageDoorControl × List String :=
  (⟨true⟩, ["Garage Door is OPEN"])

/-- `doTurnOff`: sets `isOpen = false` and prints "Garage Door is CLOSED". -/
def doTurnOff (_s : GarageDoorControl) : GarageDoorControl × List String :=
  (⟨false⟩, ["Garage Door is CLOSED"])

/-- Query `getIsOpen`. -/
def getIsOpen (s : GarageDoorControl) : Bool := s.isOpen

/-- Copy constructor / copy assignment: copies the field. -/
def copyCtor (s : GarageDoorControl) : GarageDoorControl := ⟨s.isOpen⟩

/-- Move constructor: new object takes `other.isOpen`; moved-from object
is reset to `isOpen = false`. -/
def moveCtor (other : GarageDoorControl) :
    GarageDoorControl × GarageDoorControl :=
  (⟨other.isOpen⟩, ⟨false⟩)

/-- Move assignment (`this != &other` branch): target takes
`other.isOpen`; moved-from object reset to `false`. -/
def moveAssign (_target other : GarageDoorControl) :
    GarageDoorControl × GarageDoorControl :=
  (⟨other.isOpen⟩, ⟨false⟩)

end GarageDoorControl

/-- The `runTests` harness of the source, executed in order; `true` iff
every `assert` in it holds.  (In the source a failing `assert` aborts the
process, so the conjunction being `false` means abnormal termination and
the conjunction being `true` means `main` returns 0.) -/
def runTests : Bool :=
  -- LightControl tests
  let light0 := LightControl.init
  let a1 := !(LightControl.isLightOn light0)
  let light1 := (LightControl.doTurnOn light0).1
  let a2 := LightControl.isLightOn light1
  let light2 := (LightControl.doTurnOff light1).1
  let a3 := !(LightControl.isLightOn light2)
  -- ThermostatControl tests
  let th0 := ThermostatControl.init
  let a4 := ThermostatControl.getTemperature th0 == 20
  let th1 := (ThermostatControl.setTemperature th0 25).1
  let a5 := ThermostatControl.getTemperature th1 == 25
  let th2 := (ThermostatControl.doTurnOff th1).1
  let th3 := (ThermostatControl.setTemperature th2 30).1
  let a6 := ThermostatControl.getTemperature th3 == 25
  -- SmartLockControl tests
  let lk0 := SmartLockControl.init
  let a7 := SmartLockControl.getLockStatus lk0 == true
  let lk1 := (SmartLockControl.doTurnOn lk0).1
  let a8 := !(SmartLockControl.getLockStatus lk1)
  let lk2 := (SmartLockControl.doTurnOff lk1).1
  let a9 := SmartLockControl.getLockStatus lk2
  -- GarageDoorControl tests
  let gd0 := GarageDoorControl.init
  let a10 := !(GarageDoorControl.getIsOpen gd0)
  let gd1 := (GarageDoorControl.doTurnOn gd0).1
  let a11 := GarageDoorControl.getIsOpen gd1
  let gd2 := (GarageDoorControl.doTurnOff gd1).1
  let a12 := !(GarageDoorControl.getIsOpen gd2)
  a1 && a2 && a3 && a4 && a5 && a6 && a7 && a8 && a9 && a10 && a11 && a12

/-- The eleven documented console lines of the spec, with the thermostat
confirmation line parametric in the printed value. -/
def documentedLine (l : String) : Prop :=
  l = "Light is ON" ∨ l = "Light is OFF" ∨
  l = "Thermostat is ON" ∨ l = "Thermostat is OFF" ∨
  (∃ n : Int, l = "Thermostat temperature set to: " ++ toString n) ∨
  l = "Cannot set temperature, thermostat is off." ∨
  l = "Invalid temperature. Temperature must be between 10 and 30." ∨
  l = "Smart Lock is UNLOCKED" ∨ l = "Smart Lock is LOCKED" ∨
  l = "Garage Door is OPEN" ∨ l = "Garage Door is CLOSED"

/-! ## Helper lemmas -/

/-- The state component of `setTemperature`: the temperature is set exactly
when the device is on and the value is in `[10, 30]`. -/
theorem setTemperature_fst (s : ThermostatControl) (t : Int) :
    (ThermostatControl.setTemperature s t).1 =
      if s.isOn = true ∧ 10 ≤ t ∧ t ≤ 30 then ⟨s.isOn, t⟩ else s := by
  unfold ThermostatControl.setTemperature
  by_cases hc : s.isOn = true ∧ 10 ≤ t ∧ t ≤ 30
  · simp [hc]
  · by_cases ho : s.isOn = false
    · simp [hc, ho]
    · have hT : s.isOn = true := by simpa using ho
      have hr : ¬(10 ≤ t ∧ t ≤ 30) := fun hr => hc ⟨hT, hr⟩
      simp [hc, ho, hr]

/-! ## Claim theorems -/

/-- Claim C1, counterexample: the move constructor, applied to a thermostat
that is on with temperature 20, changes the moved-from object's temperature
(to 0) while leaving it with a value outside `[10, 30]`, so the stated
invariant is not preserved by the move operations. -/
theorem thermostat_move_breaks_invariant :
    (ThermostatControl.moveCtor ⟨true, 20⟩).2.temperature ≠
      (⟨true, 20⟩ : ThermostatControl).temperature ∧
    ¬(10 ≤ (ThermostatControl.moveCtor ⟨true, 20⟩).2.temperature ∧
      (ThermostatControl.moveCtor ⟨true, 20⟩).2.temperature ≤ 30) := by
  decide

/-- Claim C1, amended: construction establishes `10 ≤ temperature ≤ 30`;
`doTurnOn`, `doTurnOff`, copy, and the target of a move never change the
temperature; whenever `setTemperature` changes the temperature the device
was on and the new value lies in `[10, 30]`.  The moved-from object of a
move is the exception: its temperature is reset to 0, outside the range. -/
theorem thermostat_invariant_amended :
    (10 ≤ ThermostatControl.init.temperature ∧
     ThermostatControl.init.temperature ≤ 30) ∧
    (∀ s, (ThermostatControl.doTurnOn s).1.temperature = s.temperature) ∧
    (∀ s, (ThermostatControl.doTurnOff s).1.temperature = s.temperature) ∧
    (∀ s t, (ThermostatControl.setTemperature s t).1.temperature ≠ s.temperature →
      s.isOn = true ∧
      10 ≤ (ThermostatControl.setTemperature s t).1.temperature ∧
      (ThermostatControl.setTemperature s t).1.temperature ≤ 30) ∧
    (∀ s, (ThermostatControl.copyCtor s).temperature = s.temperature) ∧
    (∀ s, (ThermostatControl.moveCtor s).1.temperature = s.temperature) ∧
    (∀ u s, (ThermostatControl.moveAssign u s).1.temperature = s.temperature) ∧
    (∀ s, (ThermostatControl.moveCtor s).2.temperature = 0) := by
  refine ⟨by decide, fun s => rfl, fun s => rfl, ?_,
    fun s => rfl, fun s => rfl, fun u s => rfl, fun s => rfl⟩
  intro s t h
  rw [setTemperature_fst] at h ⊢
  by_cases hc : s.isOn = true ∧ 10 ≤ t ∧ t ≤ 30
  · simp only [if_pos hc]
    exact ⟨hc.1, hc.2.1, hc.2.2⟩
  · simp only [if_neg hc] at h
    exact absurd rfl h

/-- Claim C1, witness for the amended theorem's hypotheses. -/
theorem thermostat_invariant_amended_witness :
    (⟨true, 20⟩ : ThermostatControl).isOn = true ∧
    10 ≤ (ThermostatControl.setTemperature ⟨true, 20⟩ 15).1.temperature ∧
    (ThermostatControl.setTemperature ⟨true, 20⟩ 15).1.temperature ≤ 30 :=
  thermostat_invariant_amended.2.2.2.1 ⟨true, 20⟩ 15 (by decide)

/-- Claim C2: the assertions of `runTests` do NOT all hold.  The harness
calls `setTemperature(25)` on the freshly constructed thermostat, which is
still off; the call is rejected with the off notice and the temperature
stays at 20, so the following `assert(thermostat.getTemperature() == 25)`
fails and the process aborts instead of exiting with code 0. -/
theorem runTests_fails :
    runTests = false ∧
    ThermostatControl.getTemperature
      (ThermostatControl.setTemperature ThermostatControl.init 25).1 = 20 ∧
    (ThermostatControl.setTemperature ThermostatControl.init 25).2 =
      ["Cannot set temperature, thermostat is off."] := by
  refine ⟨by decide, by decide, rfl⟩

/-- Claim C3: `setTemperature` is a two-guard validation with the off-check
taking precedence: on an off device every value is rejected with the off
notice and the state is unchanged; on an on device an out-of-range value is
rejected with the range notice and the state is unchanged; otherwise the
temperature is set (and the confirmation printed); in particular
`activate(); setTemperature(25)` yields `getTemperature() == 25`. -/
theorem setTemperature_guard_spec :
    (∀ (s : ThermostatControl) (t : Int), s.isOn = false →
      ThermostatControl.setTemperature s t =
        (s, ["Cannot set temperature, thermostat is off."])) ∧
    (∀ (s : ThermostatControl) (t : Int), s.isOn = true →
      ¬(10 ≤ t ∧ t ≤ 30) →
      ThermostatControl.setTemperature s t =
        (s, ["Invalid temperature. Temperature must be between 10 and 30."])) ∧
    (∀ (s : ThermostatControl) (t : Int), s.isOn = true →
      10 ≤ t → t ≤ 30 →
      ThermostatControl.setTemperature s t =
        (⟨true, t⟩, ["Thermostat temperature set to: " ++ toString t])) ∧
    ThermostatControl.getTemperature
      (ThermostatControl.setTemperature
        (ThermostatControl.doTurnOn ThermostatControl.init).1 25).1 = 25 := by
  refine ⟨?_, ?_, ?_, by decide⟩
  · intro s t h
    have hc : ¬(s.isOn = true ∧ 10 ≤ t ∧ t ≤ 30) := by simp [h]
    simp [ThermostatControl.setTemperature, hc, h]
  · intro s t h hr
    have hc : ¬(s.isOn = true ∧ 10 ≤ t ∧ t ≤ 30) := fun hx => hr hx.2
    simp [ThermostatControl.setTemperature, hc, h]
    intro h1 h2
    exact absurd ⟨h1, h2⟩ hr
  · intro s t h h1 h2
    simp [ThermostatControl.setTemperature, h, h1, h2]

/-- Claim C3, witness: each guard branch exercised at a concrete input. -/
theorem setTemperature_guard_spec_witness :
    ThermostatControl.setTemperature ⟨false, 20⟩ 25 =
      (⟨false, 20⟩, ["Cannot set temperature, thermostat is off."]) ∧
    ThermostatControl.setTemperature ⟨true, 20⟩ 31 =
      (⟨true, 20⟩, ["Invalid temperature. Temperature must be between 10 and 30."]) ∧
    ThermostatControl.setTemperature ⟨true, 20⟩ 25 =
      (⟨true, 25⟩, ["Thermostat temperature set to: " ++ toString (25 : Int)]) :=
  ⟨setTemperature_guard_spec.1 ⟨false, 20⟩ 25 rfl,
   setTemperature_guard_spec.2.1 ⟨true, 20⟩ 31 rfl (by decide),
   setTemperature_guard_spec.2.2.1 ⟨true, 20⟩ 25 rfl (by decide) (by decide)⟩

/-- Claim C4: on an on thermostat, `setTemperature 5` and `setTemperature 31`
leave the state unchanged while `setTemperature 10` and `setTemperature 30`
are accepted (inclusive bounds); and after `doTurnOff`, `setTemperature 30`
leaves `getTemperature` at its prior value. -/
theorem setTemperature_boundaries :
    (∀ s : ThermostatControl, s.isOn = true →
      (ThermostatControl.setTemperature s 5).1 = s ∧
      (ThermostatControl.setTemperature s 31).1 = s ∧
      (ThermostatControl.setTemperature s 10).1.temperature = 10 ∧
      (ThermostatControl.setTemperature s 30).1.temperature = 30) ∧
    (∀ s : ThermostatControl,
      ThermostatControl.getTemperature
        (ThermostatControl.setTemperature (ThermostatControl.doTurnOff s).1 30).1 =
      ThermostatControl.getTemperature s) := by
  constructor
  · intro s h
    refine ⟨?_, ?_, ?_, ?_⟩ <;> rw [setTemperature_fst] <;> simp [h]
  · intro s
    rw [ThermostatControl.getTemperature, setTemperature_fst]
    simp [ThermostatControl.doTurnOff, ThermostatControl.getTemperature]

/-- Claim C4, witness: the boundary behaviour at the concrete state
`⟨true, 20⟩`. -/
theorem setTemperature_boundaries_witness :
    (ThermostatControl.setTemperature ⟨true, 20⟩ 5).1 = ⟨true, 20⟩ ∧
    (ThermostatControl.setTemperature ⟨true, 20⟩ 31).1 = ⟨true, 20⟩ ∧
    (ThermostatControl.setTemperature ⟨true, 20⟩ 10).1.temperature = 10 ∧
    (ThermostatControl.setTemperature ⟨true, 20⟩ 30).1.temperature = 30 :=
  setTemperature_boundaries.1 ⟨true, 20⟩ rfl

/-- Claim C5, counterexample: a light that is already on is NOT returned to
its pre-activation state by `doTurnOn` followed by `doTurnOff` — the round
trip ends with the light off. -/
theorem light_roundtrip_counterexample :
    (LightControl.doTurnOff (LightControl.doTurnOn ⟨true⟩).1).1 ≠
      (⟨true⟩ : LightControl) := by
  decide

/-- Claim C5, amended: `doTurnOn` followed by `doTurnOff` always leaves the
device in its deactivated (initial) state; this equals the pre-activation
state exactly when the device started deactivated (Light off, SmartLock
locked, GarageDoor closed), in particular from the initial state. -/
theorem activate_deactivate_roundtrip :
    (∀ s : LightControl,
      (LightControl.doTurnOff (LightControl.doTurnOn s).1).1 = LightControl.init) ∧
    (∀ s : LightControl, s.isOn = false →
      (LightControl.doTurnOff (LightControl.doTurnOn s).1).1 = s) ∧
    (∀ s : SmartLockControl,
      (SmartLockControl.doTurnOff (SmartLockControl.doTurnOn s).1).1 =
        SmartLockControl.init) ∧
    (∀ s : SmartLockControl, s.isLocked = true →
      (SmartLockControl.doTurnOff (SmartLockControl.doTurnOn s).1).1 = s) ∧
    (∀ s : GarageDoorControl,
      (GarageDoorControl.doTurnOff (GarageDoorControl.doTurnOn s).1).1 =
        GarageDoorControl.init) ∧
    (∀ s : GarageDoorControl, s.isOpen = false →
      (GarageDoorControl.doTurnOff (GarageDoorControl.doTurnOn s).1).1 = s) := by
  refine ⟨fun s => rfl, ?_, fun s => rfl, ?_, fun s => rfl, ?_⟩
  · intro s h
    cases s
    simp_all [LightControl.doTurnOn, LightControl.doTurnOff]
  · intro s h
    cases s
    simp_all [SmartLockControl.doTurnOn, SmartLockControl.doTurnOff]
  · intro s h
    cases s
    simp_all [GarageDoorControl.doTurnOn, GarageDoorControl.doTurnOff]

/-- Claim C5, witness: the round trip from each initial state. -/
theorem activate_deactivate_roundtrip_witness :
    (LightControl.doTurnOff (LightControl.doTurnOn LightControl.init).1).1 =
      LightControl.init ∧
    (SmartLockControl.doTurnOff (SmartLockControl.doTurnOn SmartLockControl.init).1).1 =
      SmartLockControl.init ∧
    (GarageDoorControl.doTurnOff (GarageDoorControl.doTurnOn GarageDoorControl.init).1).1 =
      GarageDoorControl.init :=
  ⟨activate_deactivate_roundtrip.2.1 LightControl.init rfl,
   activate_deactivate_roundtrip.2.2.2.1 SmartLockControl.init rfl,
   activate_deactivate_roundtrip.2.2.2.2.2 GarageDoorControl.init rfl⟩

/-- Claim C6: every default-constructed device starts in the documented
initial state: Light off, Thermostat off with temperature 20, SmartLock
locked, GarageDoor closed. -/
theorem initial_states :
    LightControl.isLightOn LightControl.init = false ∧
    ThermostatControl.init.isOn = false ∧
    ThermostatControl.getTemperature ThermostatControl.init = 20 ∧
    SmartLockControl.getLockStatus SmartLockControl.init = true ∧
    GarageDoorControl.getIsOpen GarageDoorControl.init = false := by
  decide

/-- Claim C7: the smart lock starts locked; `doTurnOn` (activate) makes
`getLockStatus` return `false` and `doTurnOff` (deactivate) makes it return
`true`, from every prior state. -/
theorem smartlock_lock_semantics :
    SmartLockControl.getLockStatus SmartLockControl.init = true ∧
    (∀ s, SmartLockControl.getLockStatus (SmartLockControl.doTurnOn s).1 = false) ∧
    (∀ s, SmartLockControl.getLockStatus (SmartLockControl.doTurnOff s).1 = true) ∧
    SmartLockControl.getLockStatus
      (SmartLockControl.doTurnOn SmartLockControl.init).1 = false ∧
    SmartLockControl.getLockStatus
      (SmartLockControl.doTurnOff
        (SmartLockControl.doTurnOn SmartLockControl.init).1).1 = true :=
  ⟨rfl, fun _ => rfl, fun _ => rfl, rfl, rfl⟩

/-- Claim C8: every activate/deactivate call prints exactly its documented
line; `setTemperature` prints exactly one line, always one of the
documented ones, and on acceptance the confirmation line carries the
requested value; the eight fixed on/off lines are all documented. -/
theorem console_output_spec :
    (∀ s, (LightControl.doTurnOn s).2 = ["Light is ON"]) ∧
    (∀ s, (LightControl.doTurnOff s).2 = ["Light is OFF"]) ∧
    (∀ s, (ThermostatControl.doTurnOn s).2 = ["Thermostat is ON"]) ∧
    (∀ s, (ThermostatControl.doTurnOff s).2 = ["Thermostat is OFF"]) ∧
    (∀ s, (SmartLockControl.doTurnOn s).2 = ["Smart Lock is UNLOCKED"]) ∧
    (∀ s, (SmartLockControl.doTurnOff s).2 = ["Smart Lock is LOCKED"]) ∧
    (∀ s, (GarageDoorControl.doTurnOn s).2 = ["Garage Door is OPEN"]) ∧
    (∀ s, (GarageDoorControl.doTurnOff s).2 = ["Garage Door is CLOSED"]) ∧
    (∀ (s : ThermostatControl) (t : Int),
      ∃ l, (ThermostatControl.setTemperature s t).2 = [l] ∧ documentedLine l) ∧
    (∀ (s : ThermostatControl) (t : Int), s.isOn = true → 10 ≤ t → t ≤ 30 →
      (ThermostatControl.setTemperature s t).2 =
        ["Thermostat temperature set to: " ++ toString t]) ∧
    documentedLine "Light is ON" ∧ documentedLine "Light is OFF" ∧
    documentedLine "Thermostat is ON" ∧ documentedLine "Thermostat is OFF" ∧
    documentedLine "Smart Lock is UNLOCKED" ∧
    documentedLine "Smart Lock is LOCKED" ∧
    documentedLine "Garage Door is OPEN" ∧
    documentedLine "Garage Door is CLOSED" := by
  refine ⟨fun _ => rfl, fun _ => rfl, fun _ => rfl, fun _ => rfl,
    fun _ => rfl, fun _ => rfl, fun _ => rfl, fun _ => rfl, ?_, ?_,
    ?_, ?_, ?_, ?_, ?_, ?_, ?_, ?_⟩
  · intro s t
    unfold ThermostatControl.setTemperature
    by_cases hc : s.isOn = true ∧ 10 ≤ t ∧ t ≤ 30
    · exact ⟨"Thermostat temperature set to: " ++ toString t,
        by simp [hc], Or.inr (Or.inr (Or.inr (Or.inr (Or.inl ⟨t, rfl⟩))))⟩
    · by_cases ho : s.isOn = false
      · exact ⟨"Cannot set temperature, thermostat is off.",
          by simp [hc, ho], by simp [documentedLine]⟩
      · have hT : s.isOn = true := by simpa using ho
        have hr : ¬(10 ≤ t ∧ t ≤ 30) := fun hx => hc ⟨hT, hx⟩
        exact ⟨"Invalid temperature. Temperature must be between 10 and 30.",
          by simp [hc, ho, hr], by simp [documentedLine]⟩
  · intro s t h h1 h2
    simp [ThermostatControl.setTemperature, h, h1, h2]
  all_goals simp [documentedLine]

/-- Claim C8, witness: the accepted `setTemperature` confirmation line at a
concrete input, and a concrete documented line for the rejection case. -/
theorem console_output_spec_witness :
    (ThermostatControl.setTemperature ⟨true, 20⟩ 25).2 =
      ["Thermostat temperature set to: " ++ toString (25 : Int)] ∧
    (∃ l, (ThermostatControl.setTemperature ⟨false, 20⟩ 25).2 = [l] ∧
      documentedLine l) := by
  obtain ⟨-, -, -, -, -, -, -, -, hex, hok, -⟩ := console_output_spec
  exact ⟨hok ⟨true, 20⟩ 25 rfl (by decide) (by decide), hex ⟨false, 20⟩ 25⟩

/-- Claim C9: move construction and move assignment reset the moved-from
object: Light and GarageDoor to off/closed, SmartLock to locked, and the
Thermostat to off with temperature 0 — a value outside `[10, 30]`. -/
theorem move_resets_source :
    (∀ s, (LightControl.moveCtor s).2.isOn = false) ∧
    (∀ u s, (LightControl.moveAssign u s).2.isOn = false) ∧
    (∀ s, (GarageDoorControl.moveCtor s).2.isOpen = false) ∧
    (∀ u s, (GarageDoorControl.moveAssign u s).2.isOpen = false) ∧
    (∀ s, (SmartLockControl.moveCtor s).2.isLocked = true) ∧
    (∀ u s, (SmartLockControl.moveAssign u s).2.isLocked = true) ∧
    (∀ s, (ThermostatControl.moveCtor s).2 = ⟨false, 0⟩) ∧
    (∀ u s, (ThermostatControl.moveAssign u s).2 = ⟨false, 0⟩) ∧
    (∀ s, ¬(10 ≤ (ThermostatControl.moveCtor s).2.temperature ∧
            (ThermostatControl.moveCtor s).2.temperature ≤ 30)) := by
  refine ⟨fun _ => rfl, fun _ _ => rfl, fun _ => rfl, fun _ _ => rfl,
    fun _ => rfl, fun _ _ => rfl, fun _ => rfl, fun _ _ => rfl, ?_⟩
  intro s h
  simp [ThermostatControl.moveCtor] at h

/-- Claim C10: `doTurnOn` and `doTurnOff` never change the thermostat's
temperature (they change only the `isOn` flag), and `setTemperature` never
changes the `isOn` flag (it changes only the temperature). -/
theorem thermostat_frame :
    (∀ s, (ThermostatControl.doTurnOn s).1.temperature = s.temperature ∧
          (ThermostatControl.doTurnOn s).1.isOn = true) ∧
    (∀ s, (ThermostatControl.doTurnOff s).1.temperature = s.temperature ∧
          (ThermostatControl.doTurnOff s).1.isOn = false) ∧
    (∀ s t, (ThermostatControl.setTemperature s t).1.isOn = s.isOn) := by
  refine ⟨fun s => ⟨rfl, rfl⟩, fun s => ⟨rfl, rfl⟩, ?_⟩
  intro s t
  rw [setTemperature_fst]
  split <;> rfl
